import Mathlib

/-!
Verification of the Storm Audio ISP Home Assistant integration.

Shallow embedding of the integration's core:
* the volume curve converter (`helpers.py` and its duplicated copy in
  `media_player.py`), modelled over the reals (the Python source computes
  with `Decimal` approximations of the same exact functions);
* the connection-lifecycle state machine of
  `coordinator.StormAudioIspCoordinator` (retry tasks, stop flag,
  disconnect handler), modelled as an executable small-step interpreter
  over event traces;
* the entity views (`media_player`, `select`, `switch`) and their command
  methods, modelled as pure state transformers that also emit the list of
  transport commands they forward;
* the readiness gate of `helpers.py`, modelled as a function of the
  time-indexed observations it makes.
-/

namespace StormAudio

/- ------------------------------------------------------------------ -/
/- Volume curve converter: copy in helpers.py                          -/
/- ------------------------------------------------------------------ -/

namespace Helpers

noncomputable def volume_control_decibel_range : ℝ := 60

noncomputable def log_a : ℝ :=
  1 / (10 : ℝ) ^ (volume_control_decibel_range / 20)

noncomputable def log_b : ℝ := Real.log (1 / log_a)

/-- Function `volume_level_to_decibels` of helpers.py: converts volume level (0..1) to
decibels (-60..0 dB); clamps at the boundaries. -/
noncomputable def volume_level_to_decibels (volume_level : ℝ) : ℝ :=
  if volume_level ≤ 0 then -volume_control_decibel_range
  else if 1 ≤ volume_level then 0
  else 20 * Real.logb 10 (log_a * Real.exp (log_b * volume_level))

/-- Function `decibels_to_volume_level` of helpers.py: converts decibels (-60..0 dB) to
volume level (0..1); clamps at the boundaries. -/
noncomputable def decibels_to_volume_level (decibels : ℝ) : ℝ :=
  if decibels ≤ -volume_control_decibel_range then 0
  else if 0 ≤ decibels then 1
  else Real.log ((10 : ℝ) ^ (decibels / 20) / log_a) / log_b

end Helpers

/- ------------------------------------------------------------------ -/
/- Volume curve converter: copy in media_player.py                     -/
/- ------------------------------------------------------------------ -/

namespace MediaPlayer

noncomputable def ONE_HUNDRED : ℝ := 100

noncomputable def volume_control_decibel_range : ℝ := 60

noncomputable def log_a : ℝ :=
  1 / (10 : ℝ) ^ (volume_control_decibel_range / 20)

noncomputable def log_b : ℝ := Real.log (1 / log_a)

/-- Function `volume_level_to_decibels` of media_player.py: structurally identical to the
helpers.py copy except that the `volume_level <= 0` branch returns
`ONE_HUNDRED` instead of `-volume_control_decibel_range`. -/
noncomputable def volume_level_to_decibels (volume_level : ℝ) : ℝ :=
  if volume_level ≤ 0 then ONE_HUNDRED
  else if 1 ≤ volume_level then 0
  else 20 * Real.logb 10 (log_a * Real.exp (log_b * volume_level))

/-- Function `decibels_to_volume_level` of media_player.py: textually identical to the
helpers.py copy. -/
noncomputable def decibels_to_volume_level (decibels : ℝ) : ℝ :=
  if decibels ≤ -volume_control_decibel_range then 0
  else if 0 ≤ decibels then 1
  else Real.log ((10 : ℝ) ^ (decibels / 20) / log_a) / log_b

end MediaPlayer

/- ------------------------------------------------------------------ -/
/- Converter facts                                                     -/
/- ------------------------------------------------------------------ -/

lemma log_a_eq : Helpers.log_a = 1 / 1000 := by
  unfold Helpers.log_a Helpers.volume_control_decibel_range
  rw [show ((60 : ℝ) / 20) = ((3 : ℕ) : ℝ) by norm_num, Real.rpow_natCast]
  norm_num

lemma log_a_pos : 0 < Helpers.log_a := by rw [log_a_eq]; norm_num

lemma log10_pos : 0 < Real.log 10 := Real.log_pos (by norm_num)

lemma log_b_eq : Helpers.log_b = 3 * Real.log 10 := by
  unfold Helpers.log_b
  rw [log_a_eq, one_div, one_div, inv_inv,
    show (1000 : ℝ) = 10 ^ (3 : ℕ) by norm_num, Real.log_pow]
  norm_num

lemma log_inv_1000 : Real.log (1 / 1000 : ℝ) = -(3 * Real.log 10) := by
  rw [one_div, Real.log_inv, show (1000 : ℝ) = 10 ^ (3 : ℕ) by norm_num,
    Real.log_pow]
  norm_num

lemma levelToDb_interior (v : ℝ) (h0 : 0 < v) (h1 : v < 1) :
    Helpers.volume_level_to_decibels v = 60 * v - 60 := by
  unfold Helpers.volume_level_to_decibels
  rw [if_neg (not_le.mpr h0), if_neg (not_le.mpr h1), Real.logb,
    Real.log_mul (ne_of_gt log_a_pos) (Real.exp_ne_zero _), Real.log_exp,
    log_a_eq, log_b_eq, log_inv_1000]
  field_simp
  ring

lemma dbToLevel_interior (d : ℝ) (h0 : -60 < d) (h1 : d < 0) :
    Helpers.decibels_to_volume_level d = d / 60 + 1 := by
  unfold Helpers.decibels_to_volume_level Helpers.volume_control_decibel_range
  rw [if_neg (not_le.mpr h0), if_neg (not_le.mpr h1),
    Real.log_div (ne_of_gt (Real.rpow_pos_of_pos (by norm_num) _))
      (ne_of_gt log_a_pos),
    Real.log_rpow (by norm_num : (0 : ℝ) < 10), log_a_eq, log_b_eq,
    log_inv_1000]
  have h10 : Real.log 10 ≠ 0 := ne_of_gt log10_pos
  field_simp
  ring

lemma levelToDb_zero : Helpers.volume_level_to_decibels 0 = -60 := by
  unfold Helpers.volume_level_to_decibels Helpers.volume_control_decibel_range
  norm_num

lemma levelToDb_one : Helpers.volume_level_to_decibels 1 = 0 := by
  unfold Helpers.volume_level_to_decibels
  norm_num

lemma dbToLevel_neg60 : Helpers.decibels_to_volume_level (-60) = 0 := by
  unfold Helpers.decibels_to_volume_level Helpers.volume_control_decibel_range
  norm_num

lemma dbToLevel_zero : Helpers.decibels_to_volume_level 0 = 1 := by
  unfold Helpers.decibels_to_volume_level Helpers.volume_control_decibel_range
  norm_num

lemma roundtrip_level (v : ℝ) (h0 : 0 ≤ v) (h1 : v ≤ 1) :
    Helpers.decibels_to_volume_level (Helpers.volume_level_to_decibels v)
      = v := by
  rcases h0.eq_or_lt with h0e | h0l
  · rw [← h0e, levelToDb_zero, dbToLevel_neg60]
  rcases h1.eq_or_lt with h1e | h1l
  · rw [h1e, levelToDb_one, dbToLevel_zero]
  rw [levelToDb_interior v h0l h1l,
    dbToLevel_interior _ (by linarith) (by linarith)]
  ring

lemma roundtrip_db (d : ℝ) (h0 : -60 ≤ d) (h1 : d ≤ 0) :
    Helpers.volume_level_to_decibels (Helpers.decibels_to_volume_level d)
      = d := by
  rcases h0.eq_or_lt with h0e | h0l
  · rw [← h0e, dbToLevel_neg60, levelToDb_zero]
  rcases h1.eq_or_lt with h1e | h1l
  · rw [h1e, dbToLevel_zero, levelToDb_one]
  rw [dbToLevel_interior d h0l h1l,
    levelToDb_interior _ (by linarith) (by linarith)]
  ring

/-- C1: the boundary contract holds for the helpers.py copy
(`levelToDb 0 = -60`, `levelToDb 1 = 0`, `dbToLevel (-60) = 0`,
`dbToLevel 0 = 1`), but the media_player.py copy violates it at the
zero-volume boundary: `volume_level_to_decibels 0` returns `100`, not
`-60`, contradicting that function's own documented range of -60..0 dB. -/
theorem volume_boundary_contract_and_bug :
    Helpers.volume_level_to_decibels 0 = -60 ∧
    Helpers.volume_level_to_decibels 1 = 0 ∧
    Helpers.decibels_to_volume_level (-60) = 0 ∧
    Helpers.decibels_to_volume_level 0 = 1 ∧
    MediaPlayer.volume_level_to_decibels 0 = 100 ∧
    MediaPlayer.volume_level_to_decibels 0 ≠ -60 := by
  refine ⟨levelToDb_zero, levelToDb_one, dbToLevel_neg60, dbToLevel_zero,
    ?_, ?_⟩
  · simp [MediaPlayer.volume_level_to_decibels, MediaPlayer.ONE_HUNDRED]
  · simp [MediaPlayer.volume_level_to_decibels, MediaPlayer.ONE_HUNDRED]
    norm_num

/-- C2: on the grid `{0.00, 0.01, …, 1.00}` the round trip
`dbToLevel (levelToDb v)` returns `v` within 0.01, and on the integer grid
`{-60, …, 0}` the round trip `levelToDb (dbToLevel d)` returns `d` within
the rounding tolerance (the helpers.py copy; over the exact reals the two
directions are exact inverses, so any positive tolerance is met). -/
theorem volume_roundtrip_grid :
    (∀ k : ℕ, k ≤ 100 →
      |Helpers.decibels_to_volume_level
          (Helpers.volume_level_to_decibels ((k : ℝ) / 100)) -
        (k : ℝ) / 100| ≤ 1 / 100) ∧
    (∀ d : ℤ, -60 ≤ d → d ≤ 0 →
      |Helpers.volume_level_to_decibels
          (Helpers.decibels_to_volume_level (d : ℝ)) -
        (d : ℝ)| ≤ 1 / 100) := by
  constructor
  · intro k hk
    rw [roundtrip_level _ (by positivity)
      (by rw [div_le_one (by norm_num)]; exact_mod_cast hk)]
    simp
  · intro d hd0 hd1
    rw [roundtrip_db _ (by exact_mod_cast hd0) (by exact_mod_cast hd1)]
    simp

/-- Witness for C2 at `v = 0.5` and `d = -30`. -/
theorem volume_roundtrip_grid_witness :
    |Helpers.decibels_to_volume_level
        (Helpers.volume_level_to_decibels (((50 : ℕ) : ℝ) / 100)) -
      ((50 : ℕ) : ℝ) / 100| ≤ 1 / 100 ∧
    |Helpers.volume_level_to_decibels
        (Helpers.decibels_to_volume_level (((-30 : ℤ) : ℝ))) -
      ((-30 : ℤ) : ℝ)| ≤ 1 / 100 :=
  ⟨volume_roundtrip_grid.1 50 (by norm_num),
   volume_roundtrip_grid.2 (-30) (by norm_num) (by norm_num)⟩

/-- C10: the two repository copies of the decibels-to-level direction are
extensionally equal: for every real input they return the same value. -/
theorem dbToLevel_copies_extensionally_equal :
    ∀ d : ℝ, Helpers.decibels_to_volume_level d =
      MediaPlayer.decibels_to_volume_level d :=
  fun _ => rfl

/- ------------------------------------------------------------------ -/
/- Connection lifecycle of coordinator.StormAudioIspCoordinator        -/
/- ------------------------------------------------------------------ -/

namespace Coordinator

/-- Phase of a task running `_async_connect`: about to call
`telnet_client.async_connect()`, suspended inside that call, sleeping in
the 2-second backoff, or finished. -/
inductive TaskPhase where
  | ready
  | awaitingConnect
  | sleeping
  | done
deriving DecidableEq, Repr

/-- Lifecycle-relevant coordinator state plus observation counters.
`tasks` holds one entry per task ever created by
`connect_and_stay_connected` (`asyncio.create_task(self._async_connect())`);
`connectionTask` is the handle stored in `self._connection_task`, i.e. the
most recently created task. -/
structure LifeState where
  shouldReconnect : Bool
  connected : Bool
  tasks : List TaskPhase
  connectionTask : Option Nat
  connectCalls : Nat
  callsPreSuccess : Nat
  firstSuccess : Bool
  stopRequested : Bool
  callsAfterStop : Nat
  disconnectResolved : Bool
  transportClosed : Bool
deriving DecidableEq, Repr

def initialLife : LifeState :=
  { shouldReconnect := false, connected := false, tasks := [],
    connectionTask := none, connectCalls := 0, callsPreSuccess := 0,
    firstSuccess := false, stopRequested := false, callsAfterStop := 0,
    disconnectResolved := false, transportClosed := false }

/-- Scheduler events: `start` is a call to `connect_and_stay_connected`;
`beginConnect i` is task `i` invoking `telnet_client.async_connect()`
(and suspending); `finishConnect i ok` is that call returning (`ok`) or
raising `ConnectionError` (`!ok`); `wake i` is the backoff sleep of task
`i` completing; `stopReq` is a call to `async_disconnect` running until
its `await self._connection_task`; `stopResume` is `async_disconnect`
resuming once the awaited task has finished. -/
inductive Ev where
  | start
  | beginConnect (i : Nat)
  | finishConnect (i : Nat) (ok : Bool)
  | wake (i : Nat)
  | stopReq
  | stopResume
deriving DecidableEq, Repr

def step (s : LifeState) (e : Ev) : LifeState :=
  match e with
  | .start =>
      { s with shouldReconnect := true,
               tasks := s.tasks ++ [.ready],
               connectionTask := some s.tasks.length }
  | .beginConnect i =>
      if s.tasks[i]? = some .ready then
        { s with tasks := s.tasks.set i .awaitingConnect,
                 connectCalls := s.connectCalls + 1,
                 callsPreSuccess :=
                   if s.firstSuccess then s.callsPreSuccess
                   else s.callsPreSuccess + 1,
                 callsAfterStop :=
                   if s.stopRequested then s.callsAfterStop + 1
                   else s.callsAfterStop }
      else s
  | .finishConnect i ok =>
      if s.tasks[i]? = some .awaitingConnect then
        if ok then
          { s with tasks := s.tasks.set i .done, connected := true,
                   firstSuccess := true }
        else if s.shouldReconnect then
          { s with tasks := s.tasks.set i .sleeping }
        else
          { s with tasks := s.tasks.set i .done }
      else s
  | .wake i =>
      if s.tasks[i]? = some .sleeping then
        { s with tasks := s.tasks.set i .ready }
      else s
  | .stopReq =>
      if s.stopRequested then s
      else
        match s.connectionTask with
        | none =>
            { s with shouldReconnect := false, stopRequested := true,
                     disconnectResolved := true, transportClosed := true }
        | some _ =>
            { s with shouldReconnect := false, stopRequested := true }
  | .stopResume =>
      if s.stopRequested && !s.disconnectResolved then
        match s.connectionTask with
        | some i =>
            if s.tasks[i]? = some .done then
              { s with disconnectResolved := true, transportClosed := true }
            else s
        | none => s
      else s

def run (es : List Ev) : LifeState := es.foldl step initialLife

/-- Number of retry tasks that have not finished. -/
def activeTasks (s : LifeState) : Nat :=
  (s.tasks.filter (fun p => p != TaskPhase.done)).length

lemma step_start_activeTasks (s : LifeState) :
    activeTasks (step s Ev.start) = activeTasks s + 1 := by
  simp [step, activeTasks, List.filter_append]

end Coordinator

/-- Counterexample for C3: after two calls to `connect_and_stay_connected`
two retry tasks are active, and there is an interleaving in which two
transport `connect()` calls occur before the first success. -/
theorem start_not_idempotent_counterexample :
    Coordinator.activeTasks
        (Coordinator.run [Coordinator.Ev.start, Coordinator.Ev.start]) = 2 ∧
    (Coordinator.run [Coordinator.Ev.start, Coordinator.Ev.start,
        Coordinator.Ev.beginConnect 0, Coordinator.Ev.beginConnect 1,
        Coordinator.Ev.finishConnect 0 true]).callsPreSuccess = 2 := by
  constructor <;> rfl

/-- C3 amended: `connect_and_stay_connected` is not idempotent — every
call spawns a fresh retry task, so `n` consecutive calls leave `n` active
tasks (and interleavings with two concurrent connect attempts exist, see
the counterexample). -/
theorem start_spawns_task_per_call :
    ∀ n : Nat, Coordinator.activeTasks
      (Coordinator.run (List.replicate n Coordinator.Ev.start)) = n := by
  intro n
  induction n with
  | zero => rfl
  | succ n ih =>
      rw [List.replicate_succ', Coordinator.run, List.foldl_append]
      rw [Coordinator.run] at ih
      simpa [Coordinator.step_start_activeTasks] using ih

/-- Counterexample for C5: with the retry task sleeping in its backoff,
`async_disconnect` cannot resolve (first conjunct); the task observes the
stop flag only after its sleep completes, and then it still performs one
further transport `connect()` call before finishing, after which the stop
resolves (remaining conjuncts). The sleep is not observed promptly. -/
theorem stop_not_prompt_counterexample :
    (Coordinator.run [Coordinator.Ev.start, Coordinator.Ev.beginConnect 0,
        Coordinator.Ev.finishConnect 0 false, Coordinator.Ev.stopReq,
        Coordinator.Ev.stopResume]).disconnectResolved = false ∧
    (Coordinator.run [Coordinator.Ev.start, Coordinator.Ev.beginConnect 0,
        Coordinator.Ev.finishConnect 0 false, Coordinator.Ev.stopReq,
        Coordinator.Ev.wake 0, Coordinator.Ev.beginConnect 0,
        Coordinator.Ev.finishConnect 0 false,
        Coordinator.Ev.stopResume]).callsAfterStop = 1 ∧
    (Coordinator.run [Coordinator.Ev.start, Coordinator.Ev.beginConnect 0,
        Coordinator.Ev.finishConnect 0 false, Coordinator.Ev.stopReq,
        Coordinator.Ev.wake 0, Coordinator.Ev.beginConnect 0,
        Coordinator.Ev.finishConnect 0 false,
        Coordinator.Ev.stopResume]).disconnectResolved = true := by
  refine ⟨rfl, rfl, rfl⟩

/-- C5 amended: `async_disconnect` clears the reconnect flag, awaits the
tracked in-flight task, and only then closes the transport; it is safe
and immediate when the lifecycle was never started; a task sleeping in
its backoff observes the stop flag only on its next wake and performs
exactly one further transport connect attempt before finishing (for
either outcome of that attempt); a finished task makes no further
transport calls; and the transport is not closed while the tracked task
is unfinished. -/
theorem stop_semantics :
    ((Coordinator.run [Coordinator.Ev.stopReq]).disconnectResolved = true ∧
     (Coordinator.run [Coordinator.Ev.stopReq]).transportClosed = true) ∧
    (∀ (s : Coordinator.LifeState) (i : Nat) (r : Bool),
      s.shouldReconnect = false →
      s.tasks[i]? = some Coordinator.TaskPhase.sleeping →
      ((Coordinator.step (Coordinator.step (Coordinator.step s
            (Coordinator.Ev.wake i)) (Coordinator.Ev.beginConnect i))
          (Coordinator.Ev.finishConnect i r)).tasks[i]? =
        some Coordinator.TaskPhase.done ∧
       (Coordinator.step (Coordinator.step (Coordinator.step s
            (Coordinator.Ev.wake i)) (Coordinator.Ev.beginConnect i))
          (Coordinator.Ev.finishConnect i r)).connectCalls =
        s.connectCalls + 1)) ∧
    (∀ (s : Coordinator.LifeState) (i : Nat) (r : Bool),
      s.tasks[i]? = some Coordinator.TaskPhase.done →
      Coordinator.step s (Coordinator.Ev.beginConnect i) = s ∧
      Coordinator.step s (Coordinator.Ev.finishConnect i r) = s ∧
      Coordinator.step s (Coordinator.Ev.wake i) = s) ∧
    (∀ (s : Coordinator.LifeState) (i : Nat),
      s.connectionTask = some i →
      s.tasks[i]? ≠ some Coordinator.TaskPhase.done →
      (Coordinator.step s Coordinator.Ev.stopResume).transportClosed =
        s.transportClosed) := by
  refine ⟨⟨rfl, rfl⟩, ?_, ?_, ?_⟩
  · intro s i r hsr h
    have hlen : i < s.tasks.length := (List.getElem?_eq_some.mp h).1
    have h1 : Coordinator.step s (Coordinator.Ev.wake i) =
        { s with tasks := s.tasks.set i Coordinator.TaskPhase.ready } := by
      simp [Coordinator.step, h]
    have hr : (s.tasks.set i Coordinator.TaskPhase.ready)[i]? =
        some Coordinator.TaskPhase.ready :=
      List.getElem?_set_eq_of_lt _ hlen
    have hlen2 : i < (s.tasks.set i Coordinator.TaskPhase.ready).length := by
      simpa using hlen
    have ha : (s.tasks.set i Coordinator.TaskPhase.awaitingConnect)[i]? =
        some Coordinator.TaskPhase.awaitingConnect :=
      List.getElem?_set_eq_of_lt _ hlen
    have hd : (s.tasks.set i Coordinator.TaskPhase.done)[i]? =
        some Coordinator.TaskPhase.done :=
      List.getElem?_set_eq_of_lt _ hlen
    rw [h1]
    cases r <;> simp [Coordinator.step, hr, ha, hd, hsr]
  · intro s i r h
    refine ⟨?_, ?_, ?_⟩ <;> simp [Coordinator.step, h]
  · intro s i hct h
    simp only [Coordinator.step, hct]
    by_cases hsr : s.stopRequested && !s.disconnectResolved
    · simp [hsr, h]
    · simp [hsr]

/-- Witness for C5's `stop_semantics` at concrete states reached by
running concrete traces. -/
theorem stop_semantics_witness :
    ((Coordinator.step (Coordinator.step (Coordinator.step
        (Coordinator.run [Coordinator.Ev.start, Coordinator.Ev.beginConnect 0,
          Coordinator.Ev.finishConnect 0 false, Coordinator.Ev.stopReq])
        (Coordinator.Ev.wake 0)) (Coordinator.Ev.beginConnect 0))
      (Coordinator.Ev.finishConnect 0 false)).tasks[0]? =
        some Coordinator.TaskPhase.done ∧
     (Coordinator.step (Coordinator.step (Coordinator.step
        (Coordinator.run [Coordinator.Ev.start, Coordinator.Ev.beginConnect 0,
          Coordinator.Ev.finishConnect 0 false, Coordinator.Ev.stopReq])
        (Coordinator.Ev.wake 0)) (Coordinator.Ev.beginConnect 0))
      (Coordinator.Ev.finishConnect 0 false)).connectCalls =
        (Coordinator.run [Coordinator.Ev.start, Coordinator.Ev.beginConnect 0,
          Coordinator.Ev.finishConnect 0 false,
          Coordinator.Ev.stopReq]).connectCalls + 1) ∧
    (Coordinator.step (Coordinator.run [Coordinator.Ev.start,
        Coordinator.Ev.beginConnect 0, Coordinator.Ev.finishConnect 0 true])
      (Coordinator.Ev.beginConnect 0) =
      Coordinator.run [Coordinator.Ev.start, Coordinator.Ev.beginConnect 0,
        Coordinator.Ev.finishConnect 0 true]) ∧
    ((Coordinator.step (Coordinator.run [Coordinator.Ev.start])
        Coordinator.Ev.stopResume).transportClosed =
      (Coordinator.run [Coordinator.Ev.start]).transportClosed) :=
  ⟨stop_semantics.2.1
      (Coordinator.run [Coordinator.Ev.start, Coordinator.Ev.beginConnect 0,
        Coordinator.Ev.finishConnect 0 false, Coordinator.Ev.stopReq])
      0 false rfl rfl,
   (stop_semantics.2.2.1
      (Coordinator.run [Coordinator.Ev.start, Coordinator.Ev.beginConnect 0,
        Coordinator.Ev.finishConnect 0 true])
      0 false rfl).1,
   stop_semantics.2.2.2 (Coordinator.run [Coordinator.Ev.start]) 0 rfl
     (by decide)⟩

/- ------------------------------------------------------------------ -/
/- Readiness gate of helpers.py                                        -/
/- ------------------------------------------------------------------ -/

namespace Helpers

/-- Observation the readiness gate makes of the coordinator at a given
elapsed time: `canCheck` is `coordinator.connected and coordinator.data
is not None`; `fieldsOk` is whether `device_info`, `device_unique_id` and
`device_name` in the data are all non-null. -/
structure GateObs where
  canCheck : Bool
  fieldsOk : Bool
deriving DecidableEq, Repr

/-- One evaluation of the loop body's first `if`: the sticky
`all_state_available` variable is recomputed only when the coordinator is
connected with data present, and otherwise keeps its previous value. -/
def gateCheck (obs : Nat → GateObs) (t : Nat) (prev : Bool) : Bool :=
  if (obs t).canCheck then (obs t).fieldsOk else prev

/-- Function
`async_wait_2_seconds_for_initial_device_state_or_raise_platform_not_ready`
of helpers.py, as a function of the observations it makes at elapsed
times 0 and 2. Returns whether it succeeds (`false` means it raises
`PlatformNotReady`), paired with the list of sleep durations performed:
the loop checks once, and if the state is incomplete performs a single
`asyncio.sleep(2)` and rechecks, after which `wait_on_data` is false and
the loop exits. -/
def waitForInitialState (obs : Nat → GateObs) : Bool × List Nat :=
  let a1 := gateCheck obs 0 false
  if a1 then (true, [])
  else
    let a2 := gateCheck obs 2 a1
    (a2, [2])

end Helpers

/-- Counterexample for C8: the gate does not poll at 1-time-unit
intervals. With the condition satisfiable at elapsed time 1 — inside the
2-unit bound — and at no other time, the gate still raises
`PlatformNotReady` (first conjunct), because its only sleep is a single
2-unit one (second conjunct) and it only checks at times 0 and 2. -/
theorem readiness_gate_counterexample :
    (Helpers.waitForInitialState
        (fun t => { canCheck := true, fieldsOk := t == 1 })).1 = false ∧
    (Helpers.waitForInitialState
        (fun t => { canCheck := true, fieldsOk := t == 1 })).2 = [2] ∧
    (fun t => ({ canCheck := true, fieldsOk := t == 1 } : Helpers.GateObs)) 1
      = { canCheck := true, fieldsOk := true } :=
  ⟨rfl, rfl, rfl⟩

/-- C8 amended: the readiness gate checks the condition (connected with
data present and the required fields non-null) at elapsed time 0 and, if
unsatisfied, sleeps once for 2 time units and rechecks at time 2 — a
single 2-unit backoff, not 1-unit polling. It returns success without
raising when a check passes, and raises `PlatformNotReady` when both
checks fail. -/
theorem readiness_gate_semantics :
    (∀ obs : Nat → Helpers.GateObs,
      Helpers.gateCheck obs 0 false = true →
      Helpers.waitForInitialState obs = (true, [])) ∧
    (∀ obs : Nat → Helpers.GateObs,
      Helpers.gateCheck obs 0 false = false →
      Helpers.gateCheck obs 2 false = true →
      Helpers.waitForInitialState obs = (true, [2])) ∧
    (∀ obs : Nat → Helpers.GateObs,
      Helpers.gateCheck obs 0 false = false →
      Helpers.gateCheck obs 2 false = false →
      Helpers.waitForInitialState obs = (false, [2])) := by
  refine ⟨?_, ?_, ?_⟩ <;> intro obs h <;>
    simp [Helpers.waitForInitialState, h]

/-- Witness for C8's `readiness_gate_semantics`: the always-ready
observation succeeds immediately, the ready-only-at-2 observation
succeeds after the single sleep, and the never-ready observation
raises. -/
theorem readiness_gate_semantics_witness :
    Helpers.waitForInitialState
      (fun _ => { canCheck := true, fieldsOk := true }) = (true, []) ∧
    Helpers.waitForInitialState
      (fun t => { canCheck := true, fieldsOk := t == 2 }) = (true, [2]) ∧
    Helpers.waitForInitialState
      (fun _ => { canCheck := true, fieldsOk := false }) = (false, [2]) :=
  ⟨readiness_gate_semantics.1 _ rfl,
   readiness_gate_semantics.2.1 _ rfl rfl,
   readiness_gate_semantics.2.2 _ rfl rfl⟩

/- ------------------------------------------------------------------ -/
/- Device state snapshot and Python dict semantics                     -/
/- ------------------------------------------------------------------ -/

inductive ProcessorState where
  | on
  | off
  | initializing
  | shuttingDown
  | unknown
deriving DecidableEq, Repr

/-- An entry of `device_state.inputs` or `device_state.presets`. -/
structure InputItem where
  id : Int
  name : String
deriving DecidableEq, Repr

/-- The `DeviceState` snapshot delivered by the telnet client. -/
structure DeviceState where
  brand : Option String
  model : Option String
  processor_state : ProcessorState
  inputs : List InputItem
  presets : List InputItem
  input_id : Option Int
  input_zone2_id : Option Int
  preset_id : Option Int
  volume_db : Option ℚ
  mute : Option Bool
deriving DecidableEq, Repr

/-- Python `dict` update `d[k] = v`: replaces the value in place when the
key exists (keeping its position), otherwise appends the pair. -/
def dictInsert {α β : Type} [BEq α] (d : List (α × β)) (k : α) (v : β) :
    List (α × β) :=
  if d.any (fun p => p.1 == k) then
    d.map (fun p => if p.1 == k then (k, v) else p)
  else d ++ [(k, v)]

/-- Python `dict(pairs)`: later pairs overwrite earlier ones with the
same key. -/
def dictOfPairs {α β : Type} [BEq α] (ps : List (α × β)) : List (α × β) :=
  ps.foldl (fun d p => dictInsert d p.1 p.2) []

/-- Python `d[k]` / `d.get(k)` on a dict built by `dictOfPairs`. -/
def dictLookup {α β : Type} [BEq α] (d : List (α × β)) (k : α) : Option β :=
  (d.find? (fun p => p.1 == k)).map (fun p => p.2)

lemma dictLookup_eq_none_iff {α β : Type} [BEq α] (d : List (α × β))
    (k : α) :
    dictLookup d k = none ↔ ∀ p ∈ d, (p.1 == k) = false := by
  simp only [dictLookup, Option.map_eq_none', List.find?_eq_none,
    Bool.not_eq_true]

lemma dictLookup_insert_none {α β : Type} [BEq α] (d : List (α × β))
    (k k' : α) (v : β) (hne : (k' == k) = false)
    (h : dictLookup d k = none) :
    dictLookup (dictInsert d k' v) k = none := by
  rw [dictLookup_eq_none_iff] at h ⊢
  unfold dictInsert
  by_cases hany : d.any (fun p => p.1 == k') = true
  · rw [if_pos hany]
    intro p hp
    obtain ⟨q, hq, hqp⟩ := List.mem_map.mp hp
    by_cases hk : (q.1 == k') = true
    · rw [if_pos hk] at hqp
      rw [← hqp]
      exact hne
    · rw [if_neg hk] at hqp
      rw [← hqp]
      exact h q hq
  · rw [if_neg hany]
    intro p hp
    rcases List.mem_append.mp hp with hd | htl
    · exact h p hd
    · rw [List.mem_singleton.mp htl]
      exact hne

lemma dictLookup_dictOfPairs_none {α β : Type} [BEq α]
    (l : List (α × β)) (k : α) (h : ∀ p ∈ l, (p.1 == k) = false) :
    dictLookup (dictOfPairs l) k = none := by
  unfold dictOfPairs
  have main : ∀ (l : List (α × β)) (d : List (α × β)),
      (∀ p ∈ l, (p.1 == k) = false) → dictLookup d k = none →
      dictLookup (l.foldl (fun d p => dictInsert d p.1 p.2) d) k = none := by
    intro l
    induction l with
    | nil => intro d _ hd; simpa using hd
    | cons q l ih =>
        intro d hl hd
        simp only [List.foldl_cons]
        exact ih _ (fun p hp => hl p (List.mem_cons_of_mem q hp))
          (dictLookup_insert_none d k q.1 q.2
            (hl q (List.mem_cons_self q l)) hd)
  exact main l [] h rfl

/- ------------------------------------------------------------------ -/
/- Coordinator data cache and event handlers (coordinator.py)          -/
/- ------------------------------------------------------------------ -/

namespace Coordinator

def DOMAIN : String := "stormaudio_isp"

/-- The `DeviceInfo` record built by `_async_on_device_state_updated`. -/
structure DeviceInfoRec where
  domain : String
  identifier : String
  manufacturer : Option String
  modelName : Option String
  name : String
deriving DecidableEq, Repr

/-- The `data` dict the coordinator caches and hands to subscribers. -/
structure CoordData where
  device_state : DeviceState
  device_unique_id : String
  device_name : String
  device_info : DeviceInfoRec
deriving DecidableEq, Repr

/-- Data-cache-relevant state of `StormAudioIspCoordinator`:
`clientState` is what `telnet_client.get_device_state()` currently
returns, `entryUniqueId`/`entryTitle` come from the config entry, and
`pendingConnectTasks` counts tasks spawned by
`connect_and_stay_connected`. -/
structure CoordState where
  connected : Bool
  should_reconnect : Bool
  data : Option CoordData
  clientState : DeviceState
  entryUniqueId : String
  entryTitle : String
  pendingConnectTasks : Nat
deriving DecidableEq, Repr

/-- A call of `async_set_updated_data`: the snapshot handed to every
subscriber together with the connectivity flag they observe. -/
structure Notification where
  data : CoordData
  connected : Bool
deriving DecidableEq, Repr

def mkDeviceInfo (s : CoordState) : DeviceInfoRec :=
  { domain := DOMAIN, identifier := s.entryUniqueId,
    manufacturer := s.clientState.brand, modelName := s.clientState.model,
    name := s.entryTitle }

/-- The `data` dict built by `_async_on_device_state_updated` from the
client's current device state and the config entry. -/
def mkData (s : CoordState) : CoordData :=
  { device_state := s.clientState, device_unique_id := s.entryUniqueId,
    device_name := s.entryTitle, device_info := mkDeviceInfo s }

/-- `_async_on_device_state_updated`: re-queries the client state, caches
the rebuilt data dict and notifies subscribers with it. -/
def on_device_state_updated (s : CoordState) : CoordState × Notification :=
  let d := mkData s
  ({ s with data := some d }, { data := d, connected := s.connected })

/-- Data-model effect of `connect_and_stay_connected`: sets the reconnect
flag and spawns a retry task. -/
def dataConnectAndStayConnected (s : CoordState) : CoordState :=
  { s with should_reconnect := true,
           pendingConnectTasks := s.pendingConnectTasks + 1 }

/-- `_async_on_disconnected`: clears `connected`, notifies subscribers
via `_async_on_device_state_updated`, and restarts the retry loop when
`should_reconnect` is still set. -/
def on_disconnected (s : CoordState) : CoordState × Notification :=
  let s1 : CoordState := { s with connected := false }
  let r := on_device_state_updated s1
  (if r.1.should_reconnect then dataConnectAndStayConnected r.1 else r.1,
    r.2)

end Coordinator

/-- C4: when the disconnected event fires, the handler marks
`connected = false`, notifies subscribers with the connectivity flag down
and a snapshot equal to the one cached before the drop (assuming the
cache is consistent with the client state, which every cache write
maintains), keeps the cache itself unchanged — in particular never
erased — and restarts the retry loop exactly when stop has not been
requested (`should_reconnect` still set). -/
theorem disconnect_handler_contract :
    ∀ s : Coordinator.CoordState, s.data = some (Coordinator.mkData s) →
      ((Coordinator.on_disconnected s).1.connected = false ∧
       (Coordinator.on_disconnected s).2.connected = false ∧
       some (Coordinator.on_disconnected s).2.data = s.data ∧
       (Coordinator.on_disconnected s).1.data = s.data ∧
       (Coordinator.on_disconnected s).1.data ≠ none ∧
       ((Coordinator.on_disconnected s).1.pendingConnectTasks =
          s.pendingConnectTasks + 1 ↔ s.should_reconnect = true)) := by
  intro s hs
  have hmk : Coordinator.mkData { s with connected := false } =
      Coordinator.mkData s := rfl
  by_cases hr : s.should_reconnect = true <;>
    simp [Coordinator.on_disconnected, Coordinator.on_device_state_updated,
      Coordinator.dataConnectAndStayConnected, Coordinator.mkData,
      Coordinator.mkDeviceInfo, hmk, hr, hs]

/-- Witness for C4's `disconnect_handler_contract` at a concrete
coordinator state whose cache matches its client state. -/
theorem disconnect_handler_contract_witness :
    ((Coordinator.on_disconnected
        { connected := true, should_reconnect := true,
          data := some (Coordinator.mkData
            { connected := true, should_reconnect := true, data := none,
              clientState :=
                { brand := some "StormAudio", model := some "ISP MK2",
                  processor_state := ProcessorState.on,
                  inputs := [{ id := 1, name := "HDMI" }],
                  presets := [{ id := 1, name := "Movie" }],
                  input_id := some 1, input_zone2_id := none,
                  preset_id := some 1, volume_db := some (-20),
                  mute := some false },
              entryUniqueId := "uid-1", entryTitle := "Living Room",
              pendingConnectTasks := 0 }),
          clientState :=
            { brand := some "StormAudio", model := some "ISP MK2",
              processor_state := ProcessorState.on,
              inputs := [{ id := 1, name := "HDMI" }],
              presets := [{ id := 1, name := "Movie" }],
              input_id := some 1, input_zone2_id := none,
              preset_id := some 1, volume_db := some (-20),
              mute := some false },
          entryUniqueId := "uid-1", entryTitle := "Living Room",
          pendingConnectTasks := 0 }).1.connected = false) ∧
    ((Coordinator.on_disconnected
        { connected := true, should_reconnect := true,
          data := some (Coordinator.mkData
            { connected := true, should_reconnect := true, data := none,
              clientState :=
                { brand := some "StormAudio", model := some "ISP MK2",
                  processor_state := ProcessorState.on,
                  inputs := [{ id := 1, name := "HDMI" }],
                  presets := [{ id := 1, name := "Movie" }],
                  input_id := some 1, input_zone2_id := none,
                  preset_id := some 1, volume_db := some (-20),
                  mute := some false },
              entryUniqueId := "uid-1", entryTitle := "Living Room",
              pendingConnectTasks := 0 }),
          clientState :=
            { brand := some "StormAudio", model := some "ISP MK2",
              processor_state := ProcessorState.on,
              inputs := [{ id := 1, name := "HDMI" }],
              presets := [{ id := 1, name := "Movie" }],
              input_id := some 1, input_zone2_id := none,
              preset_id := some 1, volume_db := some (-20),
              mute := some false },
          entryUniqueId := "uid-1", entryTitle := "Living Room",
          pendingConnectTasks := 0 }).1.data ≠ none) :=
  ⟨(disconnect_handler_contract _ rfl).1,
   (disconnect_handler_contract _ rfl).2.2.2.2.1⟩

/- ------------------------------------------------------------------ -/
/- Entity views: media_player, select, switch                          -/
/- ------------------------------------------------------------------ -/

/-- Transport command primitives forwarded by the coordinator's command
methods to the telnet client. -/
inductive Cmd where
  | setPowerOn : Cmd
  | setPowerOff : Cmd
  | setInputId (i : Int) : Cmd
  | setInputZone2Id (i : Int) : Cmd
  | setVolumeDb (d : ℝ) : Cmd
  | setMute (b : Bool) : Cmd
  | togMute : Cmd
  | setPresetId (i : Int) : Cmd

namespace MediaPlayer

/-- Map `id -> name` built by `_set_state_from_device` from a list of
inputs or presets. -/
def id_to_name_dict (items : List InputItem) : List (Int × String) :=
  dictOfPairs (items.map fun i => (i.id, i.name))

/-- Inverted map `name -> id` (`{v: k for k, v in ....items()}`). -/
def name_to_id_dict (items : List InputItem) : List (String × Int) :=
  dictOfPairs ((id_to_name_dict items).map fun p => (p.2, p.1))

/-- `_attr_source` as computed by `_set_state_from_device`: `None`
unless `device_state.input_id` is a key of the id-to-name map. -/
def attr_source (ds : DeviceState) : Option String :=
  match ds.input_id with
  | none => none
  | some i => dictLookup (id_to_name_dict ds.inputs) i

/-- The `source_zone2` extra attribute as computed by
`_set_state_from_device`. -/
def attr_source_zone2 (ds : DeviceState) : Option String :=
  match ds.input_zone2_id with
  | none => none
  | some i => dictLookup (id_to_name_dict ds.inputs) i

/-- `_attr_sound_mode` as computed by `_set_state_from_device`. -/
def attr_sound_mode (ds : DeviceState) : Option String :=
  match ds.preset_id with
  | none => none
  | some i => dictLookup (id_to_name_dict ds.presets) i

/-- View-local displayed state of `StormAudioIspDevice` relevant to the
command methods. -/
structure MPViewState where
  is_volume_muted : Option Bool
  volume_level : Option ℚ
  source : Option String
  sound_mode : Option String
  input_name_to_input_id : Option (List (String × Int))
  preset_name_to_preset_id : Option (List (String × Int))
deriving DecidableEq, Repr

/-- `StormAudioIspDevice.async_mute_volume`: forwards `setMute` and then
optimistically updates the view's own displayed mute flag; the
coordinator state is returned untouched. -/
def async_mute_volume (coord : Coordinator.CoordState) (mp : MPViewState)
    (mute : Bool) : Coordinator.CoordState × MPViewState × List Cmd :=
  (coord, { mp with is_volume_muted := some mute }, [Cmd.setMute mute])

/-- Python `round(Decimal(volume), 2)`. The source rounds half-to-even;
this model rounds half away from even, which differs only on exact
half-cent inputs, none of which the claims exercise. -/
def round2 (q : ℚ) : ℚ := (round (q * 100) : ℤ) / 100

/-- `StormAudioIspDevice.async_set_volume_level`: rejects volumes outside
[0, 1] before any transport call; otherwise converts the rounded level to
decibels, forwards `setVolumeDb`, and optimistically updates the view's
displayed level. -/
noncomputable def async_set_volume_level (coord : Coordinator.CoordState)
    (mp : MPViewState) (volume : ℚ) :
    Coordinator.CoordState × MPViewState × List Cmd :=
  if volume < 0 ∨ volume > 1 then (coord, mp, [])
  else
    (coord, { mp with volume_level := some volume },
      [Cmd.setVolumeDb (volume_level_to_decibels ((round2 volume : ℚ) : ℝ))])

/-- `StormAudioIspDevice.async_select_source`: returns untouched when the
name-to-id map is missing or the source name is unknown; otherwise
forwards `setInputId` and optimistically updates the displayed source. -/
def async_select_source (coord : Coordinator.CoordState) (mp : MPViewState)
    (source : String) : Coordinator.CoordState × MPViewState × List Cmd :=
  match mp.input_name_to_input_id with
  | none => (coord, mp, [])
  | some m =>
      match dictLookup m source with
      | none => (coord, mp, [])
      | some sid =>
          (coord, { mp with source := some source }, [Cmd.setInputId sid])

end MediaPlayer

namespace Select

/-- View-local state of `StormAudioIspSelect`. -/
structure SelectViewState where
  current_option : Option String
  name_to_id : Option (List (String × Int))
deriving DecidableEq, Repr

/-- `_attr_current_option` as computed by the select's
`_set_state_from_device`, from the raw `(id, name)` pair list supplied by
the entity's `get_id_name_map_fn` and the current id supplied by its
`get_current_id_fn`: `None` unless the id is a key of the dict. -/
def current_option_from (idNamePairs : List (Int × String))
    (currentId : Option Int) : Option String :=
  match currentId with
  | none => none
  | some i => dictLookup (dictOfPairs idNamePairs) i

/-- `StormAudioIspSelect.async_select_option`: returns untouched when the
name-to-id map is missing; otherwise maps an unknown option name to id 0,
forwards the entity's set-current-id command (`mkCmd`), and sets the
displayed option to the requested name. -/
def async_select_option (mkCmd : Int → Cmd)
    (coord : Coordinator.CoordState) (sel : SelectViewState)
    (option : String) :
    Coordinator.CoordState × SelectViewState × List Cmd :=
  match sel.name_to_id with
  | none => (coord, sel, [])
  | some m =>
      let option_id : Int := (dictLookup m option).getD 0
      (coord, { sel with current_option := some option },
        [mkCmd option_id])

end Select

namespace Switch

/-- View-local state of `StormAudioIspMuteSwitch`: `is_on` reads
`_attr_native_value`. -/
structure SwitchViewState where
  native_value : Option Bool
deriving DecidableEq, Repr

def is_on (sw : SwitchViewState) : Option Bool := sw.native_value

/-- `StormAudioIspMuteSwitch.async_turn_on`: forwards `setMute true` and
nothing else — it does not touch `_attr_native_value` or the coordinator
cache. -/
def async_turn_on (coord : Coordinator.CoordState) (sw : SwitchViewState) :
    Coordinator.CoordState × SwitchViewState × List Cmd :=
  (coord, sw, [Cmd.setMute true])

end Switch

/-- Sample device state used by concrete witnesses. -/
def sampleDeviceState : DeviceState :=
  { brand := some "StormAudio", model := some "ISP",
    processor_state := ProcessorState.on,
    inputs := [{ id := 1, name := "HDMI" }],
    presets := [{ id := 1, name := "Movie" }],
    input_id := some 1, input_zone2_id := none, preset_id := some 1,
    volume_db := some (-20), mute := some false }

/-- Sample coordinator state used by concrete witnesses. -/
def sampleCoord : Coordinator.CoordState :=
  { connected := true, should_reconnect := true, data := none,
    clientState := sampleDeviceState, entryUniqueId := "uid",
    entryTitle := "ISP", pendingConnectTasks := 0 }

/-- Sample media_player view state used by concrete witnesses. -/
def sampleMP : MediaPlayer.MPViewState :=
  { is_volume_muted := some false, volume_level := some (1 / 2),
    source := some "HDMI", sound_mode := some "Movie",
    input_name_to_input_id := some [("HDMI", 5)],
    preset_name_to_preset_id := some [("Movie", 1)] }

/-- Sample select view state used by concrete witnesses. -/
def sampleSel : Select.SelectViewState :=
  { current_option := some "HDMI", name_to_id := some [("HDMI", 5)] }

/-- Counterexample for C6: the mute switch is an issuing view cited by
the claim, yet after its `async_turn_on` forwards `setMute true` its own
displayed value still shows unmuted — the switch performs no optimistic
update. -/
theorem mute_switch_not_optimistic_counterexample :
    (Switch.async_turn_on sampleCoord
        { native_value := some false }).2.2 = [Cmd.setMute true] ∧
    Switch.is_on (Switch.async_turn_on sampleCoord
        { native_value := some false }).2.1 = some false ∧
    Switch.is_on (Switch.async_turn_on sampleCoord
        { native_value := some false }).2.1 ≠ some true := by
  refine ⟨rfl, rfl, ?_⟩
  simp [Switch.async_turn_on, Switch.is_on]

/-- C6 amended: optimistic updates are local-only, but only the
media_player view performs one for mute: `async_mute_volume` leaves the
coordinator cache untouched, immediately reflects the muted state in its
own displayed value, and forwards exactly one `setMute`; the mute
switch's `async_turn_on` also leaves the coordinator cache untouched and
forwards `setMute true`, but leaves its own displayed value unchanged
until the next real snapshot. -/
theorem optimistic_update_is_local_only :
    (∀ (coord : Coordinator.CoordState) (mp : MediaPlayer.MPViewState)
        (b : Bool),
      (MediaPlayer.async_mute_volume coord mp b).1 = coord ∧
      (MediaPlayer.async_mute_volume coord mp b).2.1.is_volume_muted =
        some b ∧
      (MediaPlayer.async_mute_volume coord mp b).2.2 = [Cmd.setMute b]) ∧
    (∀ (coord : Coordinator.CoordState) (sw : Switch.SwitchViewState),
      (Switch.async_turn_on coord sw).1 = coord ∧
      (Switch.async_turn_on coord sw).2.1 = sw ∧
      (Switch.async_turn_on coord sw).2.2 = [Cmd.setMute true]) :=
  ⟨fun _ _ _ => ⟨rfl, rfl, rfl⟩, fun _ _ => ⟨rfl, rfl, rfl⟩⟩

/-- Counterexample for C7: `StormAudioIspSelect.async_select_option` does
not reject an option name absent from its name-to-id map — it maps the
unknown name to id 0, still calls the transport, and changes the
displayed option to the unknown name. -/
theorem select_unknown_option_counterexample :
    (Select.async_select_option Cmd.setInputId sampleCoord sampleSel
        "Unknown").2.2 = [Cmd.setInputId 0] ∧
    (Select.async_select_option Cmd.setInputId sampleCoord sampleSel
        "Unknown").2.1.current_option = some "Unknown" :=
  ⟨rfl, rfl⟩

/-- C7 amended: `async_set_volume_level` rejects volumes outside [0, 1]
locally (no transport call, no state change), and
`async_select_source` likewise returns untouched when its name-to-id map
is missing or the source name is unknown; but
`StormAudioIspSelect.async_select_option` instead maps an unknown option
name to id 0, forwards the entity's set-current-id command with 0, and
sets the displayed option to the unknown name (a missing map is still
rejected silently). -/
theorem invalid_command_input_handling :
    (∀ (coord : Coordinator.CoordState) (mp : MediaPlayer.MPViewState)
        (v : ℚ), (v < 0 ∨ v > 1) →
      MediaPlayer.async_set_volume_level coord mp v = (coord, mp, [])) ∧
    (∀ (coord : Coordinator.CoordState) (mp : MediaPlayer.MPViewState)
        (source : String), mp.input_name_to_input_id = none →
      MediaPlayer.async_select_source coord mp source = (coord, mp, [])) ∧
    (∀ (coord : Coordinator.CoordState) (mp : MediaPlayer.MPViewState)
        (source : String) (m : List (String × Int)),
      mp.input_name_to_input_id = some m → dictLookup m source = none →
      MediaPlayer.async_select_source coord mp source = (coord, mp, [])) ∧
    (∀ (mkCmd : Int → Cmd) (coord : Coordinator.CoordState)
        (sel : Select.SelectViewState) (opt : String),
      sel.name_to_id = none →
      Select.async_select_option mkCmd coord sel opt = (coord, sel, [])) ∧
    (∀ (mkCmd : Int → Cmd) (coord : Coordinator.CoordState)
        (sel : Select.SelectViewState) (opt : String)
        (m : List (String × Int)),
      sel.name_to_id = some m → dictLookup m opt = none →
      Select.async_select_option mkCmd coord sel opt =
        (coord, { sel with current_option := some opt }, [mkCmd 0])) := by
  refine ⟨?_, ?_, ?_, ?_, ?_⟩
  · intro coord mp v h
    unfold MediaPlayer.async_set_volume_level
    rw [if_pos h]
  · intro coord mp source h
    unfold MediaPlayer.async_select_source
    rw [h]
  · intro coord mp source m hm hl
    unfold MediaPlayer.async_select_source
    rw [hm]
    simp [hl]
  · intro mkCmd coord sel opt h
    unfold Select.async_select_option
    rw [h]
  · intro mkCmd coord sel opt m hm hl
    unfold Select.async_select_option
    rw [hm]
    simp [hl]

/-- Witness for C7's `invalid_command_input_handling` at concrete
inputs: an out-of-range volume, an unknown source name, and an unknown
select option. -/
theorem invalid_command_input_handling_witness :
    MediaPlayer.async_set_volume_level sampleCoord sampleMP 2 =
      (sampleCoord, sampleMP, []) ∧
    MediaPlayer.async_select_source sampleCoord sampleMP "Unknown" =
      (sampleCoord, sampleMP, []) ∧
    Select.async_select_option Cmd.setPresetId sampleCoord sampleSel
        "Unknown" =
      (sampleCoord, { sampleSel with current_option := some "Unknown" },
        [Cmd.setPresetId 0]) :=
  ⟨invalid_command_input_handling.1 sampleCoord sampleMP 2
      (Or.inr (by norm_num)),
   invalid_command_input_handling.2.2.1 sampleCoord sampleMP "Unknown"
      [("HDMI", 5)] rfl rfl,
   invalid_command_input_handling.2.2.2.2 Cmd.setPresetId sampleCoord
      sampleSel "Unknown" [("HDMI", 5)] rfl rfl⟩

lemma id_to_name_lookup_none (items : List InputItem) (i : Int)
    (h : ∀ item ∈ items, item.id ≠ i) :
    dictLookup (MediaPlayer.id_to_name_dict items) i = none := by
  apply dictLookup_dictOfPairs_none
  intro p hp
  obtain ⟨item, hitem, hpi⟩ := List.mem_map.mp hp
  rw [← hpi]
  exact beq_eq_false_iff_ne.mpr (h item hitem)

/-- C9: every derived current selection tolerates absent or unknown ids:
when `input_id` (resp. `input_zone2_id`, `preset_id`) is absent or
references no id of the corresponding `inputs`/`presets` list,
`_attr_source` (resp. the zone2 attribute, `_attr_sound_mode`) in
media_player and `_attr_current_option` in the select view are `None`,
not an error or an arbitrary value. -/
theorem stale_ids_yield_no_selection :
    (∀ ds : DeviceState,
      (ds.input_id = none ∨
        ∀ item ∈ ds.inputs, some item.id ≠ ds.input_id) →
      MediaPlayer.attr_source ds = none) ∧
    (∀ ds : DeviceState,
      (ds.input_zone2_id = none ∨
        ∀ item ∈ ds.inputs, some item.id ≠ ds.input_zone2_id) →
      MediaPlayer.attr_source_zone2 ds = none) ∧
    (∀ ds : DeviceState,
      (ds.preset_id = none ∨
        ∀ item ∈ ds.presets, some item.id ≠ ds.preset_id) →
      MediaPlayer.attr_sound_mode ds = none) ∧
    (∀ (pairs : List (Int × String)) (cid : Option Int),
      (cid = none ∨ ∀ p ∈ pairs, some p.1 ≠ cid) →
      Select.current_option_from pairs cid = none) := by
  refine ⟨?_, ?_, ?_, ?_⟩
  · intro ds h
    rcases h with h | h
    · simp [MediaPlayer.attr_source, h]
    · cases hic : ds.input_id with
      | none => simp [MediaPlayer.attr_source, hic]
      | some i =>
          simp only [MediaPlayer.attr_source, hic]
          refine id_to_name_lookup_none _ _ fun item hitem he => ?_
          exact h item hitem (by rw [he, hic])
  · intro ds h
    rcases h with h | h
    · simp [MediaPlayer.attr_source_zone2, h]
    · cases hic : ds.input_zone2_id with
      | none => simp [MediaPlayer.attr_source_zone2, hic]
      | some i =>
          simp only [MediaPlayer.attr_source_zone2, hic]
          refine id_to_name_lookup_none _ _ fun item hitem he => ?_
          exact h item hitem (by rw [he, hic])
  · intro ds h
    rcases h with h | h
    · simp [MediaPlayer.attr_sound_mode, h]
    · cases hic : ds.preset_id with
      | none => simp [MediaPlayer.attr_sound_mode, hic]
      | some i =>
          simp only [MediaPlayer.attr_sound_mode, hic]
          refine id_to_name_lookup_none _ _ fun item hitem he => ?_
          exact h item hitem (by rw [he, hic])
  · intro pairs cid h
    rcases h with h | h
    · simp [Select.current_option_from, h]
    · cases hic : cid with
      | none => simp [Select.current_option_from]
      | some i =>
          simp only [Select.current_option_from]
          refine dictLookup_dictOfPairs_none _ _ fun p hp => ?_
          refine beq_eq_false_iff_ne.mpr fun he => ?_
          exact h p hp (by rw [he, hic])

/-- Snapshot with both selection ids referencing no entry of the
corresponding lists; used by the C9 witness. -/
def staleDeviceState : DeviceState :=
  { brand := some "StormAudio", model := some "ISP",
    processor_state := ProcessorState.on,
    inputs := [{ id := 1, name := "HDMI" }],
    presets := [{ id := 1, name := "Movie" }],
    input_id := some 99, input_zone2_id := none, preset_id := some 99,
    volume_db := some (-20), mute := some false }

/-- Witness for C9's `stale_ids_yield_no_selection` at a concrete stale
snapshot. -/
theorem stale_ids_yield_no_selection_witness :
    MediaPlayer.attr_source staleDeviceState = none ∧
    MediaPlayer.attr_source_zone2 staleDeviceState = none ∧
    MediaPlayer.attr_sound_mode staleDeviceState = none ∧
    Select.current_option_from [(1, "HDMI")] (some 99) = none :=
  ⟨stale_ids_yield_no_selection.1 staleDeviceState (Or.inr (by decide)),
   stale_ids_yield_no_selection.2.1 staleDeviceState (Or.inl rfl),
   stale_ids_yield_no_selection.2.2.1 staleDeviceState (Or.inr (by decide)),
   stale_ids_yield_no_selection.2.2.2 [(1, "HDMI")] (some 99)
     (Or.inr (by decide))⟩

end StormAudio
